import Mathlib

/-!
Verification of the HackSeek relational data layer.

This file gives a shallow embedding of the database schema defined in the
repository's SQL initialization script (tables, uniqueness constraints,
foreign-key delete policies, triggers, and the three derived views), and
proves properties of the resulting state-transition functions.

Timestamps are modelled as integers (`Int`); nullable SQL columns become
`Option` fields; row identifiers (UUIDs in the source) become `Nat`.
Each mutating operation is a function from a database state to either a new
state or, for writes the schema rejects, an error value with the state
unchanged.
-/

namespace HackSeek

/-- A row of the users table: id, email (unique, not null), password hash,
optional names, active and verified flags, created and updated timestamps. -/
structure User where
  id : Nat
  email : String
  password_hash : String
  first_name : Option String
  last_name : Option String
  is_active : Bool
  is_verified : Bool
  created_at : Int
  updated_at : Int
  deriving Repr, DecidableEq

/-- A row of the hackathons table.  Of the schema's columns we keep those the
constraints, views and triggers read (start and end dates, registration
deadline, prize money, the source platform and source id of the
unique_source_hackathon constraint, the is_active flag, and updated_at),
plus title, organizer, location and the online flag as representative
payload columns.  The date, deadline, prize, source and payload columns are
nullable in the schema and are therefore Option fields. -/
structure Hackathon where
  id : Nat
  title : String
  organizer : Option String
  start_date : Option Int
  end_date : Option Int
  registration_deadline : Option Int
  location : Option String
  is_online : Bool
  prize_money : Option Int
  source_platform : Option String
  source_id : Option String
  is_active : Bool
  created_at : Int
  updated_at : Int
  deriving Repr, DecidableEq

/-- A row of the user_favorites table: both foreign keys are NOT NULL and
declared ON DELETE CASCADE; the pair (user_id, hackathon_id) is unique. -/
structure Favorite where
  id : Nat
  user_id : Nat
  hackathon_id : Nat
  created_at : Int
  deriving Repr, DecidableEq

/-- A row of the search_logs table: the user reference is nullable and
declared ON DELETE SET NULL. -/
structure SearchLog where
  id : Nat
  user_id : Option Nat
  search_query : String
  results_count : Option Int
  created_at : Int
  deriving Repr, DecidableEq

/-- A row of the chat_sessions table: the user reference is nullable and
declared ON DELETE SET NULL; session_token is unique; is_active defaults
to true. -/
structure ChatSession where
  id : Nat
  user_id : Option Nat
  session_token : String
  is_active : Bool
  created_at : Int
  last_activity_at : Int
  deriving Repr, DecidableEq

/-- The CHECK constraint on chat_messages.message_type admits exactly the
values user, assistant and system, modelled as a closed inductive type. -/
inductive MessageType where
  | user
  | assistant
  | system
  deriving Repr, DecidableEq

/-- A row of the chat_messages table: session_id is NOT NULL, references
chat_sessions and is declared ON DELETE CASCADE. -/
structure ChatMessage where
  id : Nat
  session_id : Nat
  message_type : MessageType
  content : String
  created_at : Int
  deriving Repr, DecidableEq

/-- The database state: one list of rows per table of the schema
(scraping_jobs carries no constraint or trigger any claim touches and is
omitted). -/
structure DB where
  users : List User
  hackathons : List Hackathon
  user_favorites : List Favorite
  search_logs : List SearchLog
  chat_sessions : List ChatSession
  chat_messages : List ChatMessage
  deriving Repr, DecidableEq

/-- The empty database produced by the initialization script before any
application writes (the seeded admin user is irrelevant to the claims and
omitted). -/
def DB.empty : DB :=
  { users := [], hackathons := [], user_favorites := [], search_logs := [],
    chat_sessions := [], chat_messages := [] }

/-! ### unique_source_hackathon and hackathon insertion -/

/-- SQL uniqueness semantics of CONSTRAINT unique_source_hackathon UNIQUE
(source_platform, source_id): two rows conflict only when every constrained
column is non-null in both rows and the values agree; a NULL in either
column of either row makes the comparison unknown, hence no conflict. -/
def sourceConflict (a b : Hackathon) : Bool :=
  match a.source_platform, a.source_id, b.source_platform, b.source_id with
  | some p1, some i1, some p2, some i2 => p1 == p2 && i1 == i2
  | _, _, _, _ => false

/-- INSERT INTO hackathons: rejected with a uniqueness violation when the new
row conflicts with an existing row under unique_source_hackathon, otherwise
the row is appended.  The id primary key is generated fresh by the
uuid_generate_v4() column default in the schema, so the primary key never
conflicts and is not re-checked here. -/
def insertHackathon (db : DB) (h : Hackathon) : Except String DB :=
  if db.hackathons.any (fun h0 => sourceConflict h0 h) then
    Except.error "unique_source_hackathon violation"
  else
    Except.ok { db with hackathons := db.hackathons ++ [h] }

/-- The state observed by the caller after attempting the insert: on a
rejected write the transaction aborts and the state is unchanged. -/
def runInsertHackathon (db : DB) (h : Hackathon) : DB :=
  match insertHackathon db h with
  | Except.ok db1 => db1
  | Except.error _ => db

/-! ### DELETE FROM users and the foreign-key delete policies -/

/-- DELETE FROM users WHERE id = uid, together with the schema's declared
delete policies: user_favorites.user_id is ON DELETE CASCADE (rows removed),
search_logs.user_id and chat_sessions.user_id are ON DELETE SET NULL (rows
kept, reference nulled); chat_messages reference sessions, not users, and
are untouched because no session row is deleted. -/
def deleteUser (db : DB) (uid : Nat) : DB :=
  { db with
    users := db.users.filter (fun u => u.id != uid)
    user_favorites := db.user_favorites.filter (fun f => f.user_id != uid)
    search_logs := db.search_logs.map
      (fun l => if l.user_id == some uid then { l with user_id := none } else l)
    chat_sessions := db.chat_sessions.map
      (fun s => if s.user_id == some uid then { s with user_id := none } else s) }

/-! ### chat message insertion and the session-activity trigger -/

/-- INSERT INTO chat_messages: the NOT NULL foreign key session_id must
reference an existing chat_sessions row, else the write is rejected; on
success the row is appended with created_at defaulted to the current time,
and the AFTER INSERT trigger update_chat_session_activity sets the owning
session's last_activity_at to the current time in the same transaction. -/
def insertChatMessage (db : DB) (mid sid : Nat) (t : MessageType)
    (content : String) (now : Int) : Except String DB :=
  if db.chat_sessions.any (fun s => s.id == sid) then
    Except.ok { db with
      chat_messages := db.chat_messages ++
        [{ id := mid, session_id := sid, message_type := t,
           content := content, created_at := now }]
      chat_sessions := db.chat_sessions.map
        (fun s => if s.id == sid then { s with last_activity_at := now } else s) }
  else
    Except.error "foreign key violation: chat_sessions"

/-- The state observed by the caller after attempting the message insert: a
rejected write aborts the transaction, so the trigger's update to
last_activity_at is rolled back with the insert and the state is unchanged. -/
def runInsertChatMessage (db : DB) (mid sid : Nat) (t : MessageType)
    (content : String) (now : Int) : DB :=
  match insertChatMessage db mid sid t content now with
  | Except.ok db1 => db1
  | Except.error _ => db

/-- Modelled from the spec: the backend chat endpoint that appends a message
to a session is not part of this source set; per the spec it appends to an
existing, active session only, rejecting the write when the session does not
exist or its is_active flag is false, and otherwise performs the
schema-level insert (which fires the activity trigger). -/
def appendMessage (db : DB) (mid sid : Nat) (t : MessageType)
    (content : String) (now : Int) : Except String DB :=
  match db.chat_sessions.find? (fun s => s.id == sid) with
  | none => Except.error "chat session not found"
  | some s =>
    if s.is_active then insertChatMessage db mid sid t content now
    else Except.error "chat session inactive"

/-! ### favorite management -/

/-- The number of Favorite rows for a given (user_id, hackathon_id) pair. -/
def favCount (db : DB) (uid hid : Nat) : Nat :=
  db.user_favorites.countP (fun f => f.user_id == uid && f.hackathon_id == hid)

/-- Modelled from the spec: the backend favorite-add operation is not part of
this source set; per the spec it is an idempotent upsert guarded by the
unique_user_favorite constraint on (user_id, hackathon_id): inserting a
duplicate is a no-op, not an error. -/
def addFavorite (db : DB) (fid uid hid : Nat) (now : Int) : DB :=
  if db.user_favorites.any (fun f => f.user_id == uid && f.hackathon_id == hid) then
    db
  else
    { db with user_favorites := db.user_favorites ++
        [{ id := fid, user_id := uid, hackathon_id := hid, created_at := now }] }

/-- Modelled from the spec: the backend favorite-remove operation is not part
of this source set; per the spec it deletes by (user_id, hackathon_id) and
is idempotent: removing a non-existent favorite is a no-op. -/
def removeFavorite (db : DB) (uid hid : Nat) : DB :=
  let keep : Favorite → Bool := fun f => !(f.user_id == uid && f.hackathon_id == hid)
  { db with user_favorites := db.user_favorites.filter keep }

/-- Iterated favorite insertion, for the any-number-of-times idempotence
property. -/
def addFavoriteN : Nat → DB → Nat → Nat → Nat → Int → DB
  | 0, db, _, _, _, _ => db
  | n + 1, db, fid, uid, hid, now =>
      addFavorite (addFavoriteN n db fid uid hid now) fid uid hid now

/-! ### updated_at triggers -/

/-- The trigger function update_updated_at_column, as fired BEFORE UPDATE on
hackathons: whatever the update wrote, NEW.updated_at is overwritten with
the current time. -/
def update_updated_at_column (now : Int) (h : Hackathon) : Hackathon :=
  { h with updated_at := now }

/-- The trigger function update_updated_at_column, as fired BEFORE UPDATE on
users. -/
def update_user_updated_at (now : Int) (u : User) : User :=
  { u with updated_at := now }

/-- UPDATE hackathons SET ... WHERE id = hid, with the row change given as a
function f on the row; the BEFORE UPDATE trigger unconditionally resets
updated_at to the current time in the same transaction, regardless of which
fields f changed. -/
def updateHackathon (db : DB) (hid : Nat) (f : Hackathon → Hackathon)
    (now : Int) : DB :=
  let touch : Hackathon → Hackathon :=
    fun h => if h.id == hid then update_updated_at_column now (f h) else h
  { db with hackathons := db.hackathons.map touch }

/-- UPDATE users SET ... WHERE id = uid, with the same BEFORE UPDATE trigger
behavior on updated_at. -/
def updateUser (db : DB) (uid : Nat) (f : User → User) (now : Int) : DB :=
  let touch : User → User :=
    fun u => if u.id == uid then update_user_updated_at now (f u) else u
  { db with users := db.users.map touch }

/-! ### the three derived views -/

/-- SQL predicate (col IS NULL OR col > now) on a nullable timestamp. -/
def nullOrFuture (now : Int) : Option Int → Bool
  | none => true
  | some t => decide (now < t)

/-- SQL predicate (col > now) on a nullable timestamp: NULL compares
unknown, hence false. -/
def isFuture (now : Int) : Option Int → Bool
  | none => false
  | some t => decide (now < t)

/-- SQL predicate (prize_money > 0) on the nullable prize column: NULL
compares unknown, hence false. -/
def prizePositive : Option Int → Bool
  | none => false
  | some p => decide (0 < p)

/-- The WHERE clause of the active_hackathons view: is_active = TRUE AND
(end_date IS NULL OR end_date > CURRENT_TIMESTAMP). -/
def activePred (now : Int) (h : Hackathon) : Bool :=
  h.is_active && nullOrFuture now h.end_date

/-- The WHERE clause of the upcoming_hackathons view: is_active = TRUE AND
start_date > CURRENT_TIMESTAMP AND (registration_deadline IS NULL OR
registration_deadline > CURRENT_TIMESTAMP).  Note the view does not repeat
the end_date condition of active_hackathons. -/
def upcomingPred (now : Int) (h : Hackathon) : Bool :=
  h.is_active && isFuture now h.start_date &&
    nullOrFuture now h.registration_deadline

/-- The WHERE clause of the featured_hackathons view: is_active = TRUE AND
prize_money > 0 AND (end_date IS NULL OR end_date > CURRENT_TIMESTAMP). -/
def featuredPred (now : Int) (h : Hackathon) : Bool :=
  h.is_active && prizePositive h.prize_money && nullOrFuture now h.end_date

/-- ASC comparison of nullable timestamps, with SQL default NULLS LAST for
ascending order. -/
def optAscLE : Option Int → Option Int → Prop
  | _, none => True
  | none, some _ => False
  | some x, some y => x ≤ y

instance : DecidableRel optAscLE := by
  intro a b
  cases a <;> cases b <;> unfold optAscLE <;> infer_instance

theorem optAscLE_total (a b : Option Int) : optAscLE a b ∨ optAscLE b a := by
  cases a <;> cases b <;> unfold optAscLE <;> simp
  exact Int.le_total _ _

theorem optAscLE_trans {a b c : Option Int}
    (hab : optAscLE a b) (hbc : optAscLE b c) : optAscLE a c := by
  cases a <;> cases b <;> cases c <;> unfold optAscLE at * <;> simp_all
  omega

/-- Lexicographic comparison by prize_money DESC then a secondary ASC key:
larger prize first (with SQL default NULLS FIRST for descending order,
irrelevant after the featured view's prize_money > 0 filter), ties broken
by the secondary key. -/
def prizeDescThen (s1 s2 : Option Int) : Option Int → Option Int → Prop
  | none, none => optAscLE s1 s2
  | none, some _ => True
  | some _, none => False
  | some x, some y => y < x ∨ (x = y ∧ optAscLE s1 s2)

/-- ORDER BY start_date ASC on hackathon rows. -/
def startDateLE (a b : Hackathon) : Prop :=
  optAscLE a.start_date b.start_date

/-- ORDER BY prize_money DESC, start_date ASC on hackathon rows. -/
def featuredLE (a b : Hackathon) : Prop :=
  prizeDescThen a.start_date b.start_date a.prize_money b.prize_money

instance : DecidableRel startDateLE := by
  intro a b
  unfold startDateLE
  infer_instance

instance : DecidableRel featuredLE := by
  intro a b
  unfold featuredLE prizeDescThen
  cases a.prize_money <;> cases b.prize_money <;> infer_instance

instance : IsTotal Hackathon startDateLE :=
  ⟨fun a b => optAscLE_total a.start_date b.start_date⟩

instance : IsTrans Hackathon startDateLE :=
  ⟨fun _ _ _ hab hbc => optAscLE_trans hab hbc⟩

theorem prizeDescThen_total (s1 s2 : Option Int) (p1 p2 : Option Int) :
    prizeDescThen s1 s2 p1 p2 ∨ prizeDescThen s2 s1 p2 p1 := by
  cases p1 <;> cases p2 <;> unfold prizeDescThen <;> simp
  case none.none => exact optAscLE_total s1 s2
  case some.some x y =>
    rcases Int.lt_trichotomy x y with h | h | h
    · exact Or.inr (Or.inl h)
    · rcases optAscLE_total s1 s2 with hs | hs
      · exact Or.inl (Or.inr ⟨h, hs⟩)
      · exact Or.inr (Or.inr ⟨h.symm, hs⟩)
    · exact Or.inl (Or.inl h)

theorem prizeDescThen_trans {s1 s2 s3 : Option Int} {p1 p2 p3 : Option Int}
    (hab : prizeDescThen s1 s2 p1 p2) (hbc : prizeDescThen s2 s3 p2 p3) :
    prizeDescThen s1 s3 p1 p3 := by
  cases p1 <;> cases p2 <;> cases p3 <;> unfold prizeDescThen at * <;> simp_all
  · exact optAscLE_trans hab hbc
  case some.some.some x y z =>
    rcases hab with hab | ⟨hxy, hs1⟩
    · rcases hbc with hbc | ⟨hyz, hs2⟩
      · exact Or.inl (by omega)
      · exact Or.inl (by omega)
    · rcases hbc with hbc | ⟨hyz, hs2⟩
      · exact Or.inl (by omega)
      · exact Or.inr ⟨by omega, optAscLE_trans hs1 hs2⟩

instance : IsTotal Hackathon featuredLE :=
  ⟨fun a b => prizeDescThen_total a.start_date b.start_date a.prize_money b.prize_money⟩

instance : IsTrans Hackathon featuredLE :=
  ⟨fun _ _ _ hab hbc => prizeDescThen_trans hab hbc⟩

/-- CREATE VIEW active_hackathons: SELECT * FROM hackathons WHERE the active
predicate holds, ORDER BY start_date ASC; recomputed from the current row
state at each query, here parameterized by the query time. -/
def active_hackathons (db : DB) (now : Int) : List Hackathon :=
  (db.hackathons.filter (activePred now)).insertionSort startDateLE

/-- CREATE VIEW upcoming_hackathons: SELECT * FROM hackathons WHERE the
upcoming predicate holds, ORDER BY start_date ASC. -/
def upcoming_hackathons (db : DB) (now : Int) : List Hackathon :=
  (db.hackathons.filter (upcomingPred now)).insertionSort startDateLE

/-- CREATE VIEW featured_hackathons: SELECT * FROM hackathons WHERE the
featured predicate holds, ORDER BY prize_money DESC, start_date ASC. -/
def featured_hackathons (db : DB) (now : Int) : List Hackathon :=
  (db.hackathons.filter (featuredPred now)).insertionSort featuredLE

/-! ### concrete fixtures for counterexamples and witnesses -/

/-- A hackathon row template with every nullable column null and the
schema's defaults (is_active TRUE, is_online FALSE). -/
def baseHackathon : Hackathon :=
  { id := 0, title := "", organizer := none, start_date := none,
    end_date := none, registration_deadline := none, location := none,
    is_online := false, prize_money := none, source_platform := none,
    source_id := none, is_active := true, created_at := 0, updated_at := 0 }

/-- An active hackathon whose start_date lies in the future of query time 0
but whose end_date has already passed: admitted by the upcoming view's
WHERE clause, rejected by the active view's. -/
def endedButUpcoming : Hackathon :=
  { baseHackathon with
    id := 1
    title := "Ended but upcoming"
    start_date := some 10
    end_date := some (-5) }

def dbEndedButUpcoming : DB :=
  { DB.empty with hackathons := [endedButUpcoming] }

/-- A user owning favorites, a chat session and its messages, for the
delete-cascade scenario of the spec (2 favorites, 1 session, 3 messages). -/
def scenarioUser : User :=
  { id := 1, email := "u@example.com", password_hash := "h",
    first_name := none, last_name := none, is_active := true,
    is_verified := false, created_at := 0, updated_at := 0 }

def scenarioSession : ChatSession :=
  { id := 10, user_id := some 1, session_token := "tok1",
    is_active := true, created_at := 0, last_activity_at := 0 }

def scenarioDeleteDB : DB :=
  { users := [scenarioUser]
    hackathons := [{ baseHackathon with id := 7 }, { baseHackathon with id := 8 }]
    user_favorites :=
      [{ id := 100, user_id := 1, hackathon_id := 7, created_at := 0 },
       { id := 101, user_id := 1, hackathon_id := 8, created_at := 0 }]
    search_logs := [{ id := 200, user_id := some 1, search_query := "ai",
                      results_count := some 3, created_at := 0 }]
    chat_sessions := [scenarioSession]
    chat_messages :=
      [{ id := 300, session_id := 10, message_type := MessageType.user,
         content := "hi", created_at := 1 },
       { id := 301, session_id := 10, message_type := MessageType.assistant,
         content := "hello", created_at := 2 },
       { id := 302, session_id := 10, message_type := MessageType.user,
         content := "find hackathons", created_at := 3 }] }

/-- A database holding one inactive chat session, for the rejected-append
scenario. -/
def inactiveSession : ChatSession :=
  { id := 20, user_id := none, session_token := "tok2",
    is_active := false, created_at := 0, last_activity_at := 0 }

def dbInactiveSession : DB :=
  { DB.empty with chat_sessions := [inactiveSession] }

/-- A database holding one active chat session, for witnesses. -/
def activeSession : ChatSession :=
  { id := 30, user_id := none, session_token := "tok3",
    is_active := true, created_at := 0, last_activity_at := 0 }

def dbActiveSession : DB :=
  { DB.empty with chat_sessions := [activeSession] }

/-- Two hackathons whose (source_platform, source_id) pairs are equal as
values but carry a NULL source_id: under SQL null semantics the
unique_source_hackathon constraint does not relate them. -/
def devpostNullIdA : Hackathon :=
  { baseHackathon with
    id := 40
    title := "drafted A"
    source_platform := some "Devpost" }

def devpostNullIdB : Hackathon :=
  { baseHackathon with
    id := 41
    title := "drafted B"
    source_platform := some "Devpost" }

/-- Two hackathons sharing a source_platform but with NULL source_id, for
the null-duplicate admission property. -/
def mlhNullIdA : Hackathon :=
  { baseHackathon with
    id := 50
    source_platform := some "MLH" }

def mlhNullIdB : Hackathon :=
  { baseHackathon with
    id := 51
    source_platform := some "MLH" }

/-- The spec scenario rows: otherwise-identical hackathons with prize money
5000 and 1000, active, start 100, end 130 (current time 0). -/
def prized5000 : Hackathon :=
  { baseHackathon with
    id := 60
    title := "June hack"
    start_date := some 100
    end_date := some 130
    prize_money := some 5000 }

def prized1000 : Hackathon :=
  { baseHackathon with
    id := 61
    title := "June hack"
    start_date := some 100
    end_date := some 130
    prize_money := some 1000 }

def dbPrized : DB :=
  { DB.empty with hackathons := [prized1000, prized5000] }

/-- A fresh hackathon row with a fully non-null source pair, for insert
witnesses. -/
def sourcedRow : Hackathon :=
  { baseHackathon with
    id := 70
    title := "sourced"
    source_platform := some "Unstop"
    source_id := some "u-1" }

def dbSourcedRow : DB :=
  { DB.empty with hackathons := [sourcedRow] }

/-- A second row carrying the same non-null source pair as sourcedRow. -/
def sourcedRowDup : Hackathon :=
  { baseHackathon with
    id := 71
    title := "sourced again"
    source_platform := some "Unstop"
    source_id := some "u-1" }

/-! ### claim theorems -/

/-- C4: for every database state and every hackathon row with
is_active = false, the row appears in none of the active, upcoming or
featured view results. -/
theorem C4_inactive_absent_from_views (db : DB) (now : Int) (h : Hackathon)
    (hin : h.is_active = false) :
    h ∉ active_hackathons db now ∧ h ∉ upcoming_hackathons db now ∧
      h ∉ featured_hackathons db now := by
  refine ⟨?_, ?_, ?_⟩ <;>
    simp [active_hackathons, upcoming_hackathons, featured_hackathons,
      List.mem_filter, activePred, upcomingPred, featuredPred, hin]

/-- Witness for C4 at a concrete database: a deactivated copy of the prize
scenario row is in the table but in none of the three views at time 0. -/
theorem C4_inactive_absent_from_views_witness :
    ({ prized5000 with is_active := false } : Hackathon).is_active = false ∧
      ({ prized5000 with is_active := false }) ∉
        active_hackathons { DB.empty with
          hackathons := [{ prized5000 with is_active := false }] } 0 :=
  ⟨by decide,
   (C4_inactive_absent_from_views
      { DB.empty with hackathons := [{ prized5000 with is_active := false }] }
      0 { prized5000 with is_active := false } (by decide)).1⟩

/-- C3 counterexample: an active row whose end_date has passed but whose
start_date is in the future is returned by the upcoming view while failing
the active view's condition, so the upcoming view is not the active view
further restricted. -/
theorem C3_upcoming_not_subset_active_counterexample :
    endedButUpcoming ∈ upcoming_hackathons dbEndedButUpcoming 0 ∧
      activePred 0 endedButUpcoming = false ∧
      endedButUpcoming ∉ active_hackathons dbEndedButUpcoming 0 := by
  decide

/-- C3 amended: the upcoming view returns exactly the rows with
is_active = true, start_date in the future and registration_deadline null
or in the future, ordered by start_date ascending; it does not re-check
the active view's end_date condition. -/
theorem C3_upcoming_view_characterization (db : DB) (now : Int) :
    (upcoming_hackathons db now).Perm (db.hackathons.filter (upcomingPred now)) ∧
      List.Sorted startDateLE (upcoming_hackathons db now) ∧
      (∀ h, h ∈ upcoming_hackathons db now ↔
        h ∈ db.hackathons ∧ h.is_active = true ∧
          isFuture now h.start_date = true ∧
          nullOrFuture now h.registration_deadline = true) := by
  refine ⟨List.perm_insertionSort _ _, List.sorted_insertionSort _ _, fun h => ?_⟩
  simp [upcoming_hackathons, List.mem_filter, upcomingPred, and_assoc]

/-- C1 counterexample: deleting the scenario user (2 favorites, 1 chat
session, 3 chat messages) removes the favorites, but the chat session
survives with its user reference nulled (the schema declares
chat_sessions.user_id ON DELETE SET NULL, not CASCADE) and all 3 chat
messages survive, contradicting the claimed cascade to sessions and
messages. -/
theorem C1_sessions_survive_delete_counterexample :
    (deleteUser scenarioDeleteDB 1).user_favorites.length = 0 ∧
      (deleteUser scenarioDeleteDB 1).chat_sessions.length = 1 ∧
      (deleteUser scenarioDeleteDB 1).chat_messages.length = 3 ∧
      ({ scenarioSession with user_id := none }) ∈
        (deleteUser scenarioDeleteDB 1).chat_sessions := by
  decide

/-- C1 amended: deleting a user removes all of that user's favorite rows
(CASCADE), keeps every chat session and search log row while nulling any
reference to the user (SET NULL on both), and leaves chat messages
untouched; afterwards no favorite, chat session or search log row
references the user. -/
theorem C1_delete_user_policy (db : DB) (uid : Nat) :
    (deleteUser db uid).user_favorites.countP (fun f => f.user_id == uid) = 0 ∧
      (deleteUser db uid).chat_sessions.countP (fun s => s.user_id == some uid) = 0 ∧
      (deleteUser db uid).search_logs.countP (fun l => l.user_id == some uid) = 0 ∧
      (deleteUser db uid).chat_sessions.length = db.chat_sessions.length ∧
      (deleteUser db uid).search_logs.length = db.search_logs.length ∧
      (deleteUser db uid).chat_messages = db.chat_messages := by
  refine ⟨?_, ?_, ?_, ?_, ?_, rfl⟩
  · rw [List.countP_eq_zero]
    intro f hf
    have hkeep := (List.mem_filter.mp hf).2
    simpa using hkeep
  · rw [List.countP_eq_zero]
    intro s hs
    rcases List.mem_map.mp hs with ⟨s0, _, rfl⟩
    by_cases h0 : s0.user_id == some uid <;> simp [h0]
  · rw [List.countP_eq_zero]
    intro l hl
    rcases List.mem_map.mp hl with ⟨l0, _, rfl⟩
    by_cases h0 : l0.user_id == some uid <;> simp [h0]
  · exact List.length_map _ _
  · exact List.length_map _ _

/-- C2: appending a chat message succeeds only on an existing session whose
is_active flag is true; a nonexistent session and an inactive session are
both rejected writes. -/
theorem C2_append_requires_active_session (db : DB) (mid sid : Nat)
    (t : MessageType) (c : String) (now : Int) :
    (db.chat_sessions.find? (fun s => s.id == sid) = none →
       appendMessage db mid sid t c now = Except.error "chat session not found") ∧
      (∀ s, db.chat_sessions.find? (fun x => x.id == sid) = some s →
        s.is_active = false →
        appendMessage db mid sid t c now = Except.error "chat session inactive") ∧
      (∀ db1, appendMessage db mid sid t c now = Except.ok db1 →
        ∃ s, s ∈ db.chat_sessions ∧ s.id = sid ∧ s.is_active = true ∧
          db1.chat_messages.length = db.chat_messages.length + 1) := by
  refine ⟨fun hnone => by simp [appendMessage, hnone], ?_, ?_⟩
  · intro s hs hact
    simp [appendMessage, hs, hact]
  · intro db1 hok
    unfold appendMessage at hok
    split at hok
    case h_1 => exact absurd hok (by simp)
    case h_2 s hfind =>
      split at hok
      case isFalse => exact absurd hok (by simp)
      case isTrue hact =>
        refine ⟨s, List.mem_of_find?_eq_some hfind, ?_, hact, ?_⟩
        · have := List.find?_some hfind
          simpa using this
        · unfold insertChatMessage at hok
          split at hok
          case isFalse => exact absurd hok (by simp)
          case isTrue hany =>
            cases hok
            simp

/-- Witness for C2 at a concrete database: appending to the inactive session
is rejected. -/
theorem C2_append_requires_active_session_witness :
    dbInactiveSession.chat_sessions.find? (fun x => x.id == 20) =
        some inactiveSession ∧
      inactiveSession.is_active = false ∧
      appendMessage dbInactiveSession 99 20 MessageType.user "hi" 5 =
        Except.error "chat session inactive" :=
  ⟨by decide, by decide,
   (C2_append_requires_active_session dbInactiveSession 99 20 MessageType.user
      "hi" 5).2.1 inactiveSession (by decide) (by decide)⟩

/-- C5 counterexample: two rows with equal (source_platform, source_id)
pairs whose source_id is NULL are both admitted; the second insert is not a
no-op (the row count grows), because SQL uniqueness ignores rows with a
NULL in a constrained column. -/
theorem C5_null_source_duplicate_counterexample :
    devpostNullIdA.source_platform = devpostNullIdB.source_platform ∧
      devpostNullIdA.source_id = devpostNullIdB.source_id ∧
      (runInsertHackathon DB.empty devpostNullIdA).hackathons.length = 1 ∧
      (runInsertHackathon (runInsertHackathon DB.empty devpostNullIdA)
          devpostNullIdB).hackathons.length = 2 := by
  decide

/-- C5 amended: for rows whose (source_platform, source_id) pair is equal
and fully non-null, inserting h2 while h1 is present is rejected by
unique_source_hackathon and leaves the database unchanged: the row count
is unchanged and every field of h1 is preserved. -/
theorem C5_duplicate_source_insert_noop (db : DB) (h1 h2 : Hackathon)
    (p i : String) (hmem : h1 ∈ db.hackathons)
    (hp1 : h1.source_platform = some p) (hi1 : h1.source_id = some i)
    (hp2 : h2.source_platform = some p) (hi2 : h2.source_id = some i) :
    insertHackathon db h2 = Except.error "unique_source_hackathon violation" ∧
      runInsertHackathon db h2 = db := by
  have hc : sourceConflict h1 h2 = true := by
    unfold sourceConflict
    rw [hp1, hi1, hp2, hi2]
    simp
  have hany : db.hackathons.any (fun h0 => sourceConflict h0 h2) = true :=
    List.any_eq_true.mpr ⟨h1, hmem, hc⟩
  exact ⟨by simp [insertHackathon, hany],
    by simp [runInsertHackathon, insertHackathon, hany]⟩

/-- Witness for C5 at a concrete database: re-inserting the Unstop row with
the same non-null source pair leaves the database unchanged. -/
theorem C5_duplicate_source_insert_noop_witness :
    runInsertHackathon dbSourcedRow sourcedRowDup = dbSourcedRow :=
  (C5_duplicate_source_insert_noop dbSourcedRow sourcedRow sourcedRowDup
    "Unstop" "u-1" (by decide) rfl rfl rfl rfl).2

/-- One favorite insertion either creates the single row for the pair or is
a no-op when a row for the pair already exists. -/
theorem favCount_addFavorite (db : DB) (fid uid hid : Nat) (now : Int) :
    favCount (addFavorite db fid uid hid now) uid hid =
      if favCount db uid hid = 0 then 1 else favCount db uid hid := by
  unfold addFavorite favCount
  by_cases hany : db.user_favorites.any
      (fun f => f.user_id == uid && f.hackathon_id == hid) = true
  · rw [if_pos hany]
    have hpos : 0 < db.user_favorites.countP
        (fun f => f.user_id == uid && f.hackathon_id == hid) := by
      rcases List.any_eq_true.mp hany with ⟨f, hf, hp⟩
      exact List.countP_pos_iff.mpr ⟨f, hf, hp⟩
    rw [if_neg (by omega)]
  · rw [if_neg hany]
    have hzero : db.user_favorites.countP
        (fun f => f.user_id == uid && f.hackathon_id == hid) = 0 := by
      rw [List.countP_eq_zero]
      intro f hf hp
      exact hany (List.any_eq_true.mpr ⟨f, hf, hp⟩)
    rw [List.countP_append, hzero]
    simp

/-- C6: favorite add is an idempotent upsert (a duplicate insert is a no-op,
after any number of adds of the same pair exactly one row exists), and
favorite removal is keyed by (user_id, hackathon_id) and idempotent
(removing a non-existent favorite is a no-op). -/
theorem C6_favorite_add_remove_idempotent (db : DB) (fid uid hid : Nat)
    (now : Int) (n : Nat) :
    (favCount db uid hid = 0 →
       favCount (addFavoriteN (n + 1) db fid uid hid now) uid hid = 1) ∧
      addFavorite (addFavorite db fid uid hid now) fid uid hid now =
        addFavorite db fid uid hid now ∧
      (∀ f ∈ (removeFavorite db uid hid).user_favorites,
        ¬(f.user_id = uid ∧ f.hackathon_id = hid)) ∧
      (∀ f ∈ db.user_favorites, ¬(f.user_id = uid ∧ f.hackathon_id = hid) →
        f ∈ (removeFavorite db uid hid).user_favorites) ∧
      (favCount db uid hid = 0 → removeFavorite db uid hid = db) := by
  refine ⟨?_, ?_, ?_, ?_, ?_⟩
  · intro h0
    induction n with
    | zero =>
      show favCount (addFavorite db fid uid hid now) uid hid = 1
      rw [favCount_addFavorite, if_pos h0]
    | succ n ih =>
      show favCount (addFavorite (addFavoriteN (n + 1) db fid uid hid now)
        fid uid hid now) uid hid = 1
      rw [favCount_addFavorite, ih]
      simp
  · by_cases hany : db.user_favorites.any
        (fun f => f.user_id == uid && f.hackathon_id == hid) = true
    · simp [addFavorite, hany]
    · simp [addFavorite, hany, List.any_append]
  · intro f hf
    have hkeep := (List.mem_filter.mp hf).2
    simp at hkeep
    tauto
  · intro f hf hpair
    refine List.mem_filter.mpr ⟨hf, ?_⟩
    simp
    tauto
  · intro h0
    have hfilter : db.user_favorites.filter
        (fun f => !(f.user_id == uid && f.hackathon_id == hid)) =
          db.user_favorites := by
      rw [List.filter_eq_self]
      intro f hf
      have := List.countP_eq_zero.mp h0 f hf
      simp at this ⊢
      tauto
    simp only [removeFavorite]
    rw [hfilter]

/-- Witness for C6 at a concrete database: from an empty store, adding the
favorite (1, 2) three times leaves exactly one row, and removing the
absent favorite (1, 2) is a no-op. -/
theorem C6_favorite_add_remove_idempotent_witness :
    favCount DB.empty 1 2 = 0 ∧
      favCount (addFavoriteN 3 DB.empty 9 1 2 0) 1 2 = 1 ∧
      removeFavorite DB.empty 1 2 = DB.empty :=
  ⟨by decide,
   (C6_favorite_add_remove_idempotent DB.empty 9 1 2 0 2).1 (by decide),
   (C6_favorite_add_remove_idempotent DB.empty 9 1 2 0 2).2.2.2.2 (by decide)⟩

/-- The database state after appending one message to the active-session
fixture at time 7. -/
def dbAfterMsg : DB :=
  { DB.empty with
    chat_sessions := [{ activeSession with last_activity_at := 7 }]
    chat_messages :=
      [{ id := 400, session_id := 30, message_type := MessageType.user,
         content := "q", created_at := 7 }] }

/-- C7: a successful chat-message insert appends the message with
created_at set to the insert time and, through the AFTER INSERT trigger in
the same transaction, sets the owning session's last_activity_at to that
same time, so last_activity_at equals (hence is at least) the new message's
created_at; a rejected insert leaves the state, including last_activity_at,
unchanged. -/
theorem C7_message_insert_updates_activity (db : DB) (mid sid : Nat)
    (t : MessageType) (c : String) (now : Int) :
    (∀ db1, insertChatMessage db mid sid t c now = Except.ok db1 →
       (∀ s ∈ db1.chat_sessions, s.id = sid → s.last_activity_at = now) ∧
         db1.chat_messages = db.chat_messages ++
           [{ id := mid, session_id := sid, message_type := t, content := c,
              created_at := now }] ∧
         (∀ s ∈ db1.chat_sessions, s.id = sid →
           ({ id := mid, session_id := sid, message_type := t, content := c,
              created_at := now } : ChatMessage).created_at ≤
             s.last_activity_at)) ∧
      (∀ e, insertChatMessage db mid sid t c now = Except.error e →
        runInsertChatMessage db mid sid t c now = db) := by
  constructor
  · intro db1 hok
    unfold insertChatMessage at hok
    split at hok
    case isFalse => exact absurd hok (by simp)
    case isTrue hany =>
      cases hok
      have hlast : ∀ s ∈ (db.chat_sessions.map (fun s =>
          if s.id == sid then { s with last_activity_at := now } else s)),
          s.id = sid → s.last_activity_at = now := by
        intro s hs hsid
        rcases List.mem_map.mp hs with ⟨s0, _, rfl⟩
        by_cases h0 : s0.id == sid
        · simp [h0]
        · rw [if_neg h0] at hsid ⊢
          exact absurd (by simp [hsid]) h0
      exact ⟨hlast, rfl, fun s hs hsid => by rw [hlast s hs hsid]⟩
  · intro e he
    simp [runInsertChatMessage, he]

/-- Witness for C7 at a concrete database: appending message 400 to the
active session 30 at time 7 succeeds and every session row with id 30 in
the new state carries last_activity_at 7. -/
theorem C7_message_insert_updates_activity_witness :
    insertChatMessage dbActiveSession 400 30 MessageType.user "q" 7 =
        Except.ok dbAfterMsg ∧
      (∀ s ∈ dbAfterMsg.chat_sessions, s.id = 30 → s.last_activity_at = 7) :=
  ⟨rfl,
   ((C7_message_insert_updates_activity dbActiveSession 400 30
      MessageType.user "q" 7).1 dbAfterMsg rfl).1⟩

/-- C8: any update to a hackathon or user row, whatever row change f or g it
applies, writes the row back with updated_at reset to the current time by
the BEFORE UPDATE trigger; when the clock has not gone backwards the new
updated_at is at least the previous value, and differs from it whenever the
clock has strictly advanced. -/
theorem C8_update_resets_updated_at (db : DB) (hid uid : Nat)
    (f : Hackathon → Hackathon) (g : User → User) (now : Int)
    (h : Hackathon) (hmem : h ∈ db.hackathons) (hEq : h.id = hid)
    (hclock : h.updated_at ≤ now) :
    update_updated_at_column now (f h) ∈ (updateHackathon db hid f now).hackathons ∧
      (update_updated_at_column now (f h)).updated_at = now ∧
      h.updated_at ≤ (update_updated_at_column now (f h)).updated_at ∧
      (h.updated_at < now →
        (update_updated_at_column now (f h)).updated_at ≠ h.updated_at) ∧
      (∀ u ∈ db.users, u.id = uid →
        (update_user_updated_at now (g u)).updated_at = now) := by
  refine ⟨?_, rfl, hclock, ?_, fun u _ _ => rfl⟩
  · simp only [updateHackathon, List.mem_map]
    exact ⟨h, hmem, by simp [hEq]⟩
  · intro hlt
    show now ≠ h.updated_at
    omega

/-- Witness for C8 at a concrete database: renaming the sourced row at time
5 yields membership of the touched row whose updated_at is 5. -/
theorem C8_update_resets_updated_at_witness :
    sourcedRow ∈ dbSourcedRow.hackathons ∧
      (update_updated_at_column 5
        ({ sourcedRow with title := "renamed" })).updated_at = 5 :=
  ⟨by decide,
   (C8_update_resets_updated_at dbSourcedRow 70 0
      (fun x => { x with title := "renamed" })
      id 5 sourcedRow (by decide) (by decide) (by decide)).2.1⟩

/-- C9: the featured view returns exactly the active-condition rows with
positive prize money, sorted by prize money descending then start date
ascending; in the spec scenario the 5000-prize row sorts above the
otherwise-identical 1000-prize row, and appears in the upcoming view at a
query time before its start date. -/
theorem C9_featured_view_characterization (db : DB) (now : Int) :
    (featured_hackathons db now).Perm (db.hackathons.filter (featuredPred now)) ∧
      (∀ h, h ∈ featured_hackathons db now ↔
        h ∈ db.hackathons ∧ h.is_active = true ∧
          prizePositive h.prize_money = true ∧
          nullOrFuture now h.end_date = true) ∧
      List.Sorted featuredLE (featured_hackathons db now) ∧
      featured_hackathons dbPrized 0 = [prized5000, prized1000] ∧
      prized5000.prize_money = some 5000 ∧
      prized1000.prize_money = some 1000 ∧
      prized5000 ∈ upcoming_hackathons dbPrized 0 := by
  refine ⟨List.perm_insertionSort _ _, fun h => ?_,
    List.sorted_insertionSort _ _, by decide, rfl, rfl, by decide⟩
  simp [featured_hackathons, List.mem_filter, featuredPred, and_assoc]

/-- The unique_source_hackathon conflict relation holds only between rows
whose source_platform and source_id are all non-null and pairwise equal. -/
theorem sourceConflict_eq_true_iff (a b : Hackathon) :
    sourceConflict a b = true ↔
      ∃ p i, a.source_platform = some p ∧ a.source_id = some i ∧
        b.source_platform = some p ∧ b.source_id = some i := by
  unfold sourceConflict
  rcases ha : a.source_platform with _ | p1 <;>
    rcases hai : a.source_id with _ | i1 <;>
    rcases hb : b.source_platform with _ | p2 <;>
    rcases hbi : b.source_id with _ | i2 <;> simp
  constructor
  · rintro ⟨hA, hB⟩
    exact ⟨hA.symm, hB.symm⟩
  · rintro ⟨hA, hB⟩
    exact ⟨hA.symm, hB.symm⟩

/-- C10: a hackathon row with a NULL source_platform or source_id is always
admitted by insertion regardless of existing rows (SQL nulls compare
distinct under the unique constraint), the duplicate-ingestion guard only
relates rows with both fields non-null, and two rows sharing a non-null
source_platform but with NULL source_id coexist. -/
theorem C10_null_source_pair_not_guarded (db : DB) (h : Hackathon)
    (hnull : h.source_platform = none ∨ h.source_id = none) :
    insertHackathon db h =
        Except.ok { db with hackathons := db.hackathons ++ [h] } ∧
      (∀ h1 h2 : Hackathon, sourceConflict h1 h2 = true →
        (∃ p, h1.source_platform = some p ∧ h2.source_platform = some p) ∧
          (∃ i, h1.source_id = some i ∧ h2.source_id = some i)) ∧
      mlhNullIdA.source_platform = mlhNullIdB.source_platform ∧
      (runInsertHackathon (runInsertHackathon DB.empty mlhNullIdA)
          mlhNullIdB).hackathons = [mlhNullIdA, mlhNullIdB] := by
  refine ⟨?_, ?_, rfl, by decide⟩
  · have hany : db.hackathons.any (fun h0 => sourceConflict h0 h) = false := by
      by_cases hB : db.hackathons.any (fun h0 => sourceConflict h0 h) = true
      · exfalso
        rcases List.any_eq_true.mp hB with ⟨h0, _, hc⟩
        rcases (sourceConflict_eq_true_iff h0 h).mp hc with ⟨p, i, _, _, hbp, hbi⟩
        rcases hnull with hp | hi
        · rw [hp] at hbp
          exact absurd hbp (by simp)
        · rw [hi] at hbi
          exact absurd hbi (by simp)
      · exact Bool.eq_false_iff.mpr hB
    simp [insertHackathon, hany]
  · intro h1 h2 hc
    rcases (sourceConflict_eq_true_iff h1 h2).mp hc with ⟨p, i, h1p, h1i, h2p, h2i⟩
    exact ⟨⟨p, h1p, h2p⟩, ⟨i, h1i, h2i⟩⟩

/-- Witness for C10 at a concrete database: the MLH row with NULL source_id
is admitted into the empty store. -/
theorem C10_null_source_pair_not_guarded_witness :
    insertHackathon DB.empty mlhNullIdA =
      Except.ok { DB.empty with hackathons := [mlhNullIdA] } :=
  (C10_null_source_pair_not_guarded DB.empty mlhNullIdA (Or.inr rfl)).1

end HackSeek
